import Mathlib

/-!
Verification of the Canvas SEB middleware core (credential lifecycle,
OAuth handshake callback, session round-trip, and dashboard aggregation)
against a shallow embedding of the TypeScript source.

Embedded source files:
  - frontend/lib/canvas-token.ts  (getValidToken and its refresh write)
  - frontend/lib/canvas-api.ts    (fetchCoursesWithQuizCounts, status derivation)
  - the session library (getSession / createSession / destroySession)
  - the OAuth callback POST handler (state check, token exchange, upsert)

Remote calls and the database are modelled as explicit inputs (oracles):
the fetch of the refresh endpoint becomes a `RefreshResponse` value, the
SELECT becomes an `Option DbUser`, and every effect the claims talk about
(network calls, store writes, session writes) is recorded in the result.
-/

/-- A row of the `users` table as selected by `getValidToken` and written
by the callback upsert.  `refresh_token` is `Option String`: `none` models
SQL NULL; the code's JavaScript truthiness test also treats the empty
string as absent. -/
structure DbUser where
  canvas_user_id : Int
  name : String
  email : String
  avatar_url : String
  canvas_domain : String
  access_token : String
  refresh_token : Option String
  token_expires_at : Int
  updated_at : Int
deriving DecidableEq, Repr

/-- `EXPIRY_BUFFER_MS = 5 * 60 * 1000` from canvas-token.ts: the 5 minute
proactive-refresh buffer. -/
def EXPIRY_BUFFER_MS : Int := 5 * 60 * 1000

/-- The value returned by `getValidToken` (interface `TokenResult`). -/
structure TokenResult where
  accessToken : String
  canvasUserId : Int
  canvasDomain : String
deriving DecidableEq, Repr

/-- The ways `getValidToken` throws. -/
inductive TokenError where
  | noUser (canvasUserId : Int)
  | expiredNoRefresh (canvasUserId : Int)
  | refreshFailed (status : Nat) (body : String)
deriving DecidableEq, Repr

/-- The response of the remote token endpoint
(`POST {domain}/login/oauth2/token`), as observed by the caller:
`ok`/`status`/`body` for the HTTP envelope, `access_token`/`expires_in`
for the parsed JSON on success. -/
structure RefreshResponse where
  ok : Bool
  status : Nat
  body : String
  access_token : String
  expires_in : Int
deriving DecidableEq, Repr

/-- The narrow UPDATE issued by `getValidToken` after a successful
refresh: `SET access_token, token_expires_at, updated_at WHERE
canvas_user_id`. -/
structure TokenUpdateWrite where
  canvas_user_id : Int
  access_token : String
  token_expires_at : Int
deriving DecidableEq, Repr

instance {ε α : Type} [DecidableEq ε] [DecidableEq α] : DecidableEq (Except ε α) := fun x y =>
  match x, y with
  | .ok a, .ok b =>
    if h : a = b then .isTrue (by subst h; rfl)
    else .isFalse (fun hc => h (by injection hc))
  | .error a, .error b =>
    if h : a = b then .isTrue (by subst h; rfl)
    else .isFalse (fun hc => h (by injection hc))
  | .ok _, .error _ => .isFalse (fun hc => Except.noConfusion hc)
  | .error _, .ok _ => .isFalse (fun hc => Except.noConfusion hc)

/-- Everything observable about one call to `getValidToken`: the returned
value or thrown error, how many network requests were issued, and the
store write, if any. -/
structure GetValidTokenRun where
  result : Except TokenError TokenResult
  networkCalls : Nat
  dbWrite : Option TokenUpdateWrite
deriving DecidableEq, Repr

/-- JavaScript truthiness of the `refresh_token` column: NULL and the
empty string are both falsy (`!user.refresh_token`). -/
def refreshTokenPresent : Option String → Bool
  | none => false
  | some s => !s.isEmpty

/-- Shallow embedding of `getValidToken` (canvas-token.ts).  `lookup` is
the row returned by the SELECT (none when no row matches), `now` is the
`Date.now()` read compared against the expiry, `now2` is the second
`Date.now()` read used to compute the new absolute expiry, and `resp` is
the remote token endpoint's response (consulted only when the code
actually issues that request). -/
def getValidToken (lookup : Option DbUser) (now now2 : Int)
    (resp : RefreshResponse) (canvasUserId : Int) : GetValidTokenRun :=
  match lookup with
  | none => ⟨.error (.noUser canvasUserId), 0, none⟩
  | some user =>
    let expiresAt := user.token_expires_at
    if expiresAt - now > EXPIRY_BUFFER_MS then
      ⟨.ok ⟨user.access_token, user.canvas_user_id, user.canvas_domain⟩, 0, none⟩
    else if !refreshTokenPresent user.refresh_token then
      ⟨.error (.expiredNoRefresh canvasUserId), 0, none⟩
    else if !resp.ok then
      ⟨.error (.refreshFailed resp.status resp.body), 1, none⟩
    else
      let newExpiresAt := now2 + resp.expires_in * 1000
      ⟨.ok ⟨resp.access_token, user.canvas_user_id, user.canvas_domain⟩, 1,
        some ⟨canvasUserId, resp.access_token, newExpiresAt⟩⟩

/-- The row-level effect of the refresh UPDATE: rows whose
`canvas_user_id` matches get the new access token, expiry and
`updated_at`; every other column, and every other row, is untouched. -/
def applyTokenUpdate (w : TokenUpdateWrite) (nowDb : Int) (u : DbUser) : DbUser :=
  if u.canvas_user_id = w.canvas_user_id then
    { u with access_token := w.access_token,
             token_expires_at := w.token_expires_at,
             updated_at := nowDb }
  else u

/-- The refresh UPDATE over the whole `users` table. -/
def updateTokensTable (w : TokenUpdateWrite) (nowDb : Int)
    (table : List DbUser) : List DbUser :=
  table.map (applyTokenUpdate w nowDb)

/-- C1: a credential still comfortably inside its lifetime is returned as
stored, with no network call and no store write. -/
theorem getValidToken_fresh_path (u : DbUser) (now now2 : Int)
    (resp : RefreshResponse) (uid : Int)
    (hfresh : u.token_expires_at - now > EXPIRY_BUFFER_MS) :
    getValidToken (some u) now now2 resp uid =
      ⟨.ok ⟨u.access_token, u.canvas_user_id, u.canvas_domain⟩, 0, none⟩ := by
  simp [getValidToken, hfresh]

/-- Witness for C1 at a concrete credential. -/
theorem getValidToken_fresh_path_witness :
    getValidToken
        (some { canvas_user_id := 7, name := "n", email := "e", avatar_url := "a",
                canvas_domain := "https://ufl.instructure.com",
                access_token := "tok", refresh_token := some "rt",
                token_expires_at := 1000000, updated_at := 0 })
        0 0 ⟨true, 200, "", "ignored", 3600⟩ 7 =
      ⟨.ok ⟨"tok", 7, "https://ufl.instructure.com"⟩, 0, none⟩ :=
  getValidToken_fresh_path _ _ _ _ _ (by decide)

/-- C4: an expired (or expiring) credential without a refresh token fails
with the terminal no-refresh error, with no network call and no store
write. -/
theorem getValidToken_no_refresh_token (u : DbUser) (now now2 : Int)
    (resp : RefreshResponse) (uid : Int)
    (hstale : ¬ u.token_expires_at - now > EXPIRY_BUFFER_MS)
    (hnort : refreshTokenPresent u.refresh_token = false) :
    getValidToken (some u) now now2 resp uid =
      ⟨.error (.expiredNoRefresh uid), 0, none⟩ := by
  simp [getValidToken, hstale, hnort]

/-- Witness for C4 at a concrete expired credential with NULL refresh
token. -/
theorem getValidToken_no_refresh_token_witness :
    getValidToken
        (some { canvas_user_id := 7, name := "n", email := "e", avatar_url := "a",
                canvas_domain := "https://ufl.instructure.com",
                access_token := "tok", refresh_token := none,
                token_expires_at := 0, updated_at := 0 })
        1000000 1000000 ⟨true, 200, "", "ignored", 3600⟩ 7 =
      ⟨.error (.expiredNoRefresh 7), 0, none⟩ :=
  getValidToken_no_refresh_token _ _ _ _ _ (by decide) (by decide)

/-- C5 (as stated) is false: on a successful refresh response with a
small `expires_in` (here 0) and an exactly expired credential, the
persisted `token_expires_at` equals the previous value instead of
strictly increasing, even though exactly one refresh call was made. -/
theorem getValidToken_expiry_can_fail_to_increase :
    getValidToken
        (some { canvas_user_id := 7, name := "n", email := "e", avatar_url := "a",
                canvas_domain := "https://ufl.instructure.com",
                access_token := "old", refresh_token := some "rt",
                token_expires_at := 0, updated_at := 0 })
        0 0 ⟨true, 200, "", "new", 0⟩ 7 =
      ⟨.ok ⟨"new", 7, "https://ufl.instructure.com"⟩, 1, some ⟨7, "new", 0⟩⟩ ∧
    ¬ ((0 : Int) > 0) := by
  constructor
  · rfl
  · decide

/-- C5 amended: with an expired-or-expiring credential and a refresh
token present, exactly one refresh call is made, and when the response
succeeds with a token lifetime exceeding the refresh buffer (and the
second clock reading is not earlier than the first), the persisted
`token_expires_at` strictly increases. -/
theorem getValidToken_refresh_path (u : DbUser) (now now2 : Int)
    (resp : RefreshResponse) (uid : Int)
    (hstale : ¬ u.token_expires_at - now > EXPIRY_BUFFER_MS)
    (hrt : refreshTokenPresent u.refresh_token = true) :
    (getValidToken (some u) now now2 resp uid).networkCalls = 1 ∧
    (resp.ok = true → resp.expires_in * 1000 > EXPIRY_BUFFER_MS → now2 ≥ now →
      ∃ w, (getValidToken (some u) now now2 resp uid).dbWrite = some w ∧
        w.token_expires_at > u.token_expires_at) := by
  constructor
  · by_cases hok : resp.ok
    · simp [getValidToken, hstale, hrt, hok]
    · simp [getValidToken, hstale, hrt, hok]
  · intro hok hlife hclock
    refine ⟨⟨uid, resp.access_token, now2 + resp.expires_in * 1000⟩, ?_, ?_⟩
    · simp [getValidToken, hstale, hrt, hok]
    · have hb : EXPIRY_BUFFER_MS = 300000 := rfl
      show now2 + resp.expires_in * 1000 > u.token_expires_at
      omega

/-- Witness for the amended C5 at a concrete credential and response. -/
theorem getValidToken_refresh_path_witness :
    (getValidToken
        (some { canvas_user_id := 7, name := "n", email := "e", avatar_url := "a",
                canvas_domain := "https://ufl.instructure.com",
                access_token := "old", refresh_token := some "rt",
                token_expires_at := 500, updated_at := 0 })
        1000 1000 ⟨true, 200, "", "new", 3600⟩ 7).networkCalls = 1 ∧
    ((true : Bool) = true → (3600 : Int) * 1000 > EXPIRY_BUFFER_MS → (1000 : Int) ≥ 1000 →
      ∃ w, (getValidToken
        (some { canvas_user_id := 7, name := "n", email := "e", avatar_url := "a",
                canvas_domain := "https://ufl.instructure.com",
                access_token := "old", refresh_token := some "rt",
                token_expires_at := 500, updated_at := 0 })
        1000 1000 ⟨true, 200, "", "new", 3600⟩ 7).dbWrite = some w ∧
        w.token_expires_at > 500) :=
  getValidToken_refresh_path _ _ _ _ _ (by decide) (by decide)

/-- C6: the refresh UPDATE changes only `access_token`,
`token_expires_at` and `updated_at` of the matching row; the refresh
token and all profile fields (name, email, avatar, domain), and every
other row, are left unchanged. -/
theorem updateTokensTable_frame (w : TokenUpdateWrite) (nowDb : Int)
    (table : List DbUser) :
    (updateTokensTable w nowDb table).map
        (fun u => (u.canvas_user_id, u.name, u.email, u.avatar_url,
                   u.canvas_domain, u.refresh_token)) =
      table.map
        (fun u => (u.canvas_user_id, u.name, u.email, u.avatar_url,
                   u.canvas_domain, u.refresh_token)) ∧
    ∀ u ∈ table, u.canvas_user_id ≠ w.canvas_user_id →
      applyTokenUpdate w nowDb u = u := by
  constructor
  · simp only [updateTokensTable, List.map_map]
    apply List.map_congr_left
    intro u _
    by_cases h : u.canvas_user_id = w.canvas_user_id
    · simp [applyTokenUpdate, h]
    · simp [applyTokenUpdate, h]
  · intro u _ h
    simp [applyTokenUpdate, h]

/-- A concrete two-row table used to exercise the frame theorem. -/
def sampleUsersTable : List DbUser :=
  [{ canvas_user_id := 7, name := "n", email := "e", avatar_url := "a",
     canvas_domain := "d", access_token := "old", refresh_token := some "rt",
     token_expires_at := 0, updated_at := 0 },
   { canvas_user_id := 8, name := "m", email := "f", avatar_url := "b",
     canvas_domain := "d2", access_token := "o2", refresh_token := none,
     token_expires_at := 1, updated_at := 1 }]

/-- Witness for C6 at a concrete two-row table. -/
theorem updateTokensTable_frame_witness :
    (updateTokensTable ⟨7, "new", 9000⟩ 5 sampleUsersTable).map
        (fun u => (u.canvas_user_id, u.name, u.email, u.avatar_url,
                   u.canvas_domain, u.refresh_token)) =
      sampleUsersTable.map
        (fun u => (u.canvas_user_id, u.name, u.email, u.avatar_url,
                   u.canvas_domain, u.refresh_token)) ∧
    ∀ u ∈ sampleUsersTable, u.canvas_user_id ≠ (7 : Int) →
      applyTokenUpdate ⟨7, "new", 9000⟩ 5 u = u :=
  updateTokensTable_frame ⟨7, "new", 9000⟩ 5 sampleUsersTable

/-- A course as returned by `GET /api/v1/courses` (interface
`CanvasCourse`); `total_students` is optional in the payload. -/
structure CanvasCourse where
  id : Int
  name : String
  course_code : String
  total_students : Option Int
deriving DecidableEq, Repr

/-- `quiz_settings` of a New Quiz. -/
structure QuizSettings where
  require_student_access_code : Option Bool
  student_access_code : Option String
deriving DecidableEq, Repr

/-- A New Quiz as returned by `GET /api/quiz/v1/courses/{id}/quizzes`
(interface `CanvasNewQuiz`). -/
structure CanvasNewQuiz where
  id : String
  title : String
  quiz_settings : Option QuizSettings
deriving DecidableEq, Repr

/-- The derived per-course status (`DashboardCourse["status"]`). -/
inductive CourseStatus where
  | active
  | setup
  | no_seb
deriving DecidableEq, Repr

/-- A row of the aggregation result (interface `DashboardCourse`). -/
structure DashboardCourse where
  id : Int
  name : String
  course_code : String
  total_students : Int
  seb_quiz_count : Nat
  status : CourseStatus
deriving DecidableEq, Repr

/-- An error thrown by `canvasGet` (HTTP status plus message). -/
structure CanvasError where
  status : Nat
  message : String
deriving DecidableEq, Repr

/-- The per-quiz filter of `fetchCoursesWithQuizCounts`:
`q.quiz_settings?.require_student_access_code === true`. -/
def requiresAccessCode (q : CanvasNewQuiz) : Bool :=
  match q.quiz_settings with
  | some s => s.require_student_access_code == some true
  | none => false

/-- `sebQuizCount`: the number of quizzes passing the lockdown-required
filter. -/
def sebQuizCount (quizzes : List CanvasNewQuiz) : Nat :=
  (quizzes.filter requiresAccessCode).length

/-- The status derivation of `fetchCoursesWithQuizCounts`:
`active` if `sebQuizCount > 0`, else `setup` if `quizzes.length > 0`,
else `no_seb`. -/
def deriveStatus (quizzes : List CanvasNewQuiz) : CourseStatus :=
  if sebQuizCount quizzes > 0 then .active
  else if quizzes.length > 0 then .setup
  else .no_seb

/-- The body of one per-course task: the quiz fetch is wrapped in
try/catch, degrading to the empty list on error, and the task itself
never rejects — it always fulfils with a `DashboardCourse`.  `quizFetch`
is the oracle for `GET /api/quiz/v1/courses/{id}/quizzes`. -/
def perCourseTask (quizFetch : Int → Except CanvasError (List CanvasNewQuiz))
    (course : CanvasCourse) : Except CanvasError DashboardCourse :=
  let quizzes :=
    match quizFetch course.id with
    | .ok qs => qs
    | .error _ => []
  .ok { id := course.id, name := course.name, course_code := course.course_code,
        total_students := course.total_students.getD 0,
        seb_quiz_count := sebQuizCount quizzes,
        status := deriveStatus quizzes }

/-- `Promise.allSettled` followed by the fulfilled-only filter and the
value projection: keep exactly the fulfilled outcomes. -/
def settledFulfilled {α : Type} (results : List (Except CanvasError α)) : List α :=
  results.filterMap (fun r => match r with | .ok v => some v | .error _ => none)

/-- Shallow embedding of `fetchCoursesWithQuizCounts` (canvas-api.ts).
`courseFetch` is the oracle for the initial course-list request; a
failure there propagates as the thrown error.  Otherwise every course is
mapped through its task and the settled results are filtered to the
fulfilled ones. -/
def fetchCoursesWithQuizCounts
    (courseFetch : Except CanvasError (List CanvasCourse))
    (quizFetch : Int → Except CanvasError (List CanvasNewQuiz)) :
    Except CanvasError (List DashboardCourse) :=
  match courseFetch with
  | .error e => .error e
  | .ok canvasCourses =>
      .ok (settledFulfilled (canvasCourses.map (perCourseTask quizFetch)))


/-- The positive count of qualifying quizzes is equivalent to the
existence of a qualifying quiz. -/
theorem sebQuizCount_pos_iff (quizzes : List CanvasNewQuiz) :
    0 < sebQuizCount quizzes ↔ ∃ q ∈ quizzes, requiresAccessCode q = true := by
  simp [sebQuizCount, List.length_pos, List.filter_eq_nil_iff]

/-- C3: the derived status is a pure function of the observed quizzes:
`active` exactly when some quiz requires a student access code, `setup`
exactly when quizzes were observed but none requires one, and `no_seb`
exactly when none were observed; a qualifying quiz always wins. -/
theorem deriveStatus_characterisation (quizzes : List CanvasNewQuiz) :
    (deriveStatus quizzes = .active ↔ ∃ q ∈ quizzes, requiresAccessCode q = true) ∧
    (deriveStatus quizzes = .setup ↔
      quizzes ≠ [] ∧ ∀ q ∈ quizzes, requiresAccessCode q = false) ∧
    (deriveStatus quizzes = .no_seb ↔ quizzes = []) := by
  have hcount := sebQuizCount_pos_iff quizzes
  refine ⟨?_, ?_, ?_⟩
  · rw [deriveStatus]
    split_ifs with h1 h2
    · exact iff_of_true rfl (hcount.mp h1)
    · exact iff_of_false (by decide) (fun hex => h1 (hcount.mpr hex))
    · exact iff_of_false (by decide) (fun hex => h1 (hcount.mpr hex))
  · rw [deriveStatus]
    split_ifs with h1 h2
    · refine iff_of_false (by decide) ?_
      rintro ⟨hne, hall⟩
      rcases hcount.mp h1 with ⟨q, hq, hreq⟩
      have := hall q hq
      rw [this] at hreq
      exact Bool.false_ne_true hreq
    · refine iff_of_true rfl ⟨List.length_pos.mp h2, ?_⟩
      intro q hq
      by_contra hb
      rw [Bool.not_eq_false] at hb
      exact h1 (hcount.mpr ⟨q, hq, hb⟩)
    · refine iff_of_false (by decide) ?_
      rintro ⟨hne, _⟩
      exact hne (List.length_eq_zero.mp (by omega))
  · rw [deriveStatus]
    split_ifs with h1 h2
    · refine iff_of_false (by decide) ?_
      intro hnil
      subst hnil
      simp [sebQuizCount] at h1
    · refine iff_of_false (by decide) ?_
      intro hnil
      subst hnil
      simp at h2
    · exact iff_of_true rfl (List.length_eq_zero.mp (by omega))

/-- C8: when the initial course-list fetch fails, the whole aggregation
call fails with that error; no partial or fabricated course list is
returned. -/
theorem fetchCoursesWithQuizCounts_course_list_failure (e : CanvasError)
    (quizFetch : Int → Except CanvasError (List CanvasNewQuiz)) :
    fetchCoursesWithQuizCounts (.error e) quizFetch = .error e := rfl

/-- C10: on a successful course-list fetch the aggregation returns
exactly one dashboard row per input course, with matching ids in the
input order — the per-course task catches its only fallible step, so the
fulfilled-only filter never drops a course. -/
theorem fetchCoursesWithQuizCounts_preserves_courses
    (cs : List CanvasCourse)
    (quizFetch : Int → Except CanvasError (List CanvasNewQuiz)) :
    ∃ l, fetchCoursesWithQuizCounts (.ok cs) quizFetch = .ok l ∧
      l.map (fun d => d.id) = cs.map (fun c => c.id) := by
  refine ⟨settledFulfilled (cs.map (perCourseTask quizFetch)), rfl, ?_⟩
  induction cs with
  | nil => rfl
  | cons c rest ih =>
    simpa [settledFulfilled, perCourseTask, List.filterMap_cons] using ih

/-- C7: a course whose quiz fetch fails entirely still appears in the
aggregation result with zero qualifying quizzes and status `no_seb`; the
whole response stays a success. -/
theorem fetchCoursesWithQuizCounts_quiz_failure_degrades
    (cs : List CanvasCourse)
    (quizFetch : Int → Except CanvasError (List CanvasNewQuiz))
    (c : CanvasCourse) (e : CanvasError)
    (hc : c ∈ cs) (hfail : quizFetch c.id = .error e) :
    ∃ l, fetchCoursesWithQuizCounts (.ok cs) quizFetch = .ok l ∧
      ∃ d ∈ l, d.id = c.id ∧ d.seb_quiz_count = 0 ∧ d.status = .no_seb := by
  have hd : perCourseTask quizFetch c =
      .ok { id := c.id, name := c.name, course_code := c.course_code,
            total_students := c.total_students.getD 0,
            seb_quiz_count := 0, status := .no_seb } := by
    simp [perCourseTask, hfail, sebQuizCount, deriveStatus]
  refine ⟨settledFulfilled (cs.map (perCourseTask quizFetch)), rfl, ?_⟩
  refine ⟨{ id := c.id, name := c.name, course_code := c.course_code,
            total_students := c.total_students.getD 0,
            seb_quiz_count := 0, status := .no_seb }, ?_, rfl, rfl, rfl⟩
  rw [settledFulfilled, List.mem_filterMap]
  exact ⟨perCourseTask quizFetch c, List.mem_map_of_mem _ hc, by rw [hd]⟩

/-- A concrete course used by the aggregation witnesses. -/
def sampleCourse : CanvasCourse :=
  { id := 1, name := "A", course_code := "C1", total_students := some 30 }

/-- A quiz-fetch oracle that fails for every course. -/
def failingQuizFetch : Int → Except CanvasError (List CanvasNewQuiz) :=
  fun _ => .error { status := 500, message := "boom" }

/-- Witness for C7 at a concrete one-course list whose quiz fetch
fails. -/
theorem fetchCoursesWithQuizCounts_quiz_failure_degrades_witness :
    sampleCourse ∈ [sampleCourse] ∧
    failingQuizFetch sampleCourse.id = .error { status := 500, message := "boom" } ∧
    ∃ l, fetchCoursesWithQuizCounts (.ok [sampleCourse]) failingQuizFetch = .ok l ∧
      ∃ d ∈ l, d.id = sampleCourse.id ∧ d.seb_quiz_count = 0 ∧ d.status = .no_seb :=
  ⟨by decide, rfl,
    fetchCoursesWithQuizCounts_quiz_failure_degrades [sampleCourse] failingQuizFetch
      sampleCourse { status := 500, message := "boom" } (by decide) rfl⟩

/-- JavaScript truthiness plus the `typeof x !== "string"` guard used on
the callback body fields: `none` models an absent or non-string value,
and the empty string is falsy. -/
def strFieldOk : Option String → Bool
  | none => false
  | some s => !s.isEmpty

/-- The provider's response to the authorization-code exchange
(`POST {CANVAS_URL}/login/oauth2/token`), as observed by the handler. -/
structure ExchangeResponse where
  ok : Bool
  status : Nat
  access_token : String
  refresh_token : String
  expires_in : Int
  userId : Int
  userName : String
  error_description : String
deriving DecidableEq, Repr

/-- The profile fetched from `GET /api/v1/users/self/profile`. -/
structure CanvasProfile where
  id : Int
  name : String
  primary_email : String
  avatar_url : String
deriving DecidableEq, Repr

/-- The upsert the callback issues into the `users` table. -/
structure UpsertWrite where
  canvas_user_id : Int
  name : String
  email : String
  avatar_url : String
  canvas_domain : String
  access_token : String
  refresh_token : String
  token_expires_at : Int
deriving DecidableEq, Repr

/-- Everything observable about one run of the callback handler: the
HTTP status of the response, how many requests hit the provider's token
endpoint, the store write if any, and the session created if any. -/
structure CallbackRun where
  status : Nat
  tokenEndpointCalls : Nat
  dbUpsert : Option UpsertWrite
  sessionCreatedFor : Option Int
deriving DecidableEq, Repr

/-- Shallow embedding of the OAuth callback `POST` handler.  `code` and
`state` are the body fields (`none` for absent or non-string), and
`storedState` is the `canvas_oauth_state` cookie.  `exchange` is the
token endpoint's response and `profile` the profile fetch's payload,
each consulted only when the handler actually issues that request.
`canvasUrl` is the configured provider base URL and `now` the
`Date.now()` read used for the absolute expiry. -/
def authCallbackPOST (code state storedState : Option String)
    (exchange : ExchangeResponse) (profile : CanvasProfile)
    (canvasUrl : String) (now : Int) : CallbackRun :=
  if !strFieldOk code then
    { status := 400, tokenEndpointCalls := 0, dbUpsert := none, sessionCreatedFor := none }
  else if !strFieldOk state then
    { status := 400, tokenEndpointCalls := 0, dbUpsert := none, sessionCreatedFor := none }
  else
    let storedMatches :=
      match storedState with
      | none => false
      | some t => !t.isEmpty && (some t == state)
    if !storedMatches then
      { status := 403, tokenEndpointCalls := 0, dbUpsert := none, sessionCreatedFor := none }
    else if !exchange.ok then
      { status := exchange.status, tokenEndpointCalls := 1,
        dbUpsert := none, sessionCreatedFor := none }
    else
      { status := 200, tokenEndpointCalls := 1,
        dbUpsert := some
          { canvas_user_id := profile.id, name := profile.name,
            email := profile.primary_email, avatar_url := profile.avatar_url,
            canvas_domain := canvasUrl, access_token := exchange.access_token,
            refresh_token := exchange.refresh_token,
            token_expires_at := now + exchange.expires_in * 1000 },
        sessionCreatedFor := some profile.id }

/-- C2: whenever the `state` body field does not match the stored
anti-forgery cookie — including a missing or empty cookie — the handler
responds 403 and never reaches the provider's token endpoint, the store
or the session, regardless of how valid the authorization code and the
exchange response are. -/
theorem authCallbackPOST_csrf_mismatch (c s : String) (storedState : Option String)
    (exchange : ExchangeResponse) (profile : CanvasProfile)
    (canvasUrl : String) (now : Int)
    (hc : ¬ c.isEmpty) (hs : ¬ s.isEmpty)
    (hmismatch : ∀ t, storedState = some t → t ≠ s) :
    authCallbackPOST (some c) (some s) storedState exchange profile canvasUrl now =
      { status := 403, tokenEndpointCalls := 0,
        dbUpsert := none, sessionCreatedFor := none } := by
  cases storedState with
  | none => simp [authCallbackPOST, strFieldOk, hc, hs]
  | some t =>
    have hne : t ≠ s := hmismatch t rfl
    simp [authCallbackPOST, strFieldOk, hc, hs, hne]

/-- Witness for C2: a well-formed code and state, a stale stored state,
and an exchange response that would otherwise succeed. -/
theorem authCallbackPOST_csrf_mismatch_witness :
    ¬ ("goodcode").isEmpty ∧ ¬ ("clientstate").isEmpty ∧
    (∀ t, (some "otherstate" : Option String) = some t → t ≠ "clientstate") ∧
    authCallbackPOST (some "goodcode") (some "clientstate") (some "otherstate")
        { ok := true, status := 200, access_token := "at", refresh_token := "rt",
          expires_in := 3600, userId := 7, userName := "u", error_description := "" }
        { id := 7, name := "u", primary_email := "u@ufl.edu", avatar_url := "av" }
        "https://ufl.instructure.com" 0 =
      { status := 403, tokenEndpointCalls := 0,
        dbUpsert := none, sessionCreatedFor := none } :=
  ⟨by decide, by decide,
   fun t ht => by injection ht with h; subst h; decide,
   authCallbackPOST_csrf_mismatch "goodcode" "clientstate" (some "otherstate") _ _ _ _
     (by decide) (by decide)
     (fun t ht => by injection ht with h; subst h; decide)⟩

/-- Modelled from the spec: the iron-session encrypted cookie container
is not part of this repository, so it is modelled as an opaque sealed
blob carrying the key epoch under which it was sealed and the payload
(only `canvasUserId`); decryption yields the payload exactly when the
epochs match, and anything else collapses to the unauthenticated
state. -/
structure SealedSession where
  keyEpoch : Nat
  canvasUserId : Option Int
deriving DecidableEq, Repr

/-- Modelled from the spec: decrypting a sealed blob under a key epoch —
a wrong key yields nothing rather than a decrypted-but-wrong value. -/
def unsealSession (epoch : Nat) (blob : SealedSession) : Option Int :=
  if blob.keyEpoch = epoch then blob.canvasUserId else none

/-- `getSession` (session library): read the `gfh_session` cookie and
decrypt it; a missing or undecryptable cookie is the unauthenticated
state (`canvasUserId` absent). -/
def getSessionData (epoch : Nat) (cookie : Option SealedSession) : Option Int :=
  match cookie with
  | none => none
  | some blob => unsealSession epoch blob

/-- `createSession` (session library): read the current session, set
`canvasUserId`, and save — the cookie now holds the sealed payload. -/
def createSession (epoch : Nat) (canvasUserId : Int)
    (cookie : Option SealedSession) : Option SealedSession :=
  let _session := getSessionData epoch cookie
  some { keyEpoch := epoch, canvasUserId := some canvasUserId }

/-- `destroySession` (session library): `session.destroy()` clears the
cookie. -/
def destroySession (_cookie : Option SealedSession) : Option SealedSession :=
  none

/-- C9: creating a session for `id` and reading it back within the same
key epoch yields `id`; after destroying the session a read yields the
unauthenticated state. -/
theorem session_roundtrip (epoch : Nat) (id : Int) (cookie : Option SealedSession) :
    getSessionData epoch (createSession epoch id cookie) = some id ∧
    getSessionData epoch (destroySession (createSession epoch id cookie)) = none := by
  constructor
  · simp [getSessionData, createSession, unsealSession]
  · rfl
